import Mathlib

/-!
Verification of the SIP user-agent signaling core (`server/sipService.ts`).

The call-lifecycle and registration logic of the `SIPService` class is
shallowly embedded here: the mutable class fields become explicit state
records, each response handler / public operation becomes a pure step
function returning the updated state together with the list of SIP
requests it hands to the transport (`sip.send`), and JavaScript `Date`
values are modelled as natural-number timestamps supplied by the event.
Untyped header objects are modelled as records with the fields the code
actually reads; `null`/`undefined` values become `Option`.
-/

namespace SIPCore

/-- The `status` field of a `SIPCall` (`sipService.ts` line 29). -/
inductive CallStatus where
  | initiating
  | ringing
  | answered
  | ended
  | failed
deriving DecidableEq, Repr

/-- One element of a `via` header array (built at lines 455-461). -/
structure SIPVia where
  version : String
  protocol : String
  host : String
  port : Nat
  branch : String
deriving DecidableEq, Repr

/-- A `to`/`from` header value: a URI plus an optional tag parameter. -/
structure NameAddr where
  uri : String
  tag : Option String
deriving DecidableEq, Repr

/-- A SIP request as the code hands it to `sip.send`.  `contact` models
`headers.contact?.[0]?.uri`; `signed` records whether
`digest.signRequest` was applied (the digest math itself is external). -/
structure SIPRequest where
  method : String
  uri : String
  to_ : NameAddr
  from_ : NameAddr
  callIdHdr : String
  cseqMethod : String
  cseqSeq : Nat
  via : List SIPVia
  contact : Option String
  contentType : Option String
  content : Option String
  expires : Option Nat
  signed : Bool
deriving DecidableEq, Repr

/-- An inbound SIP response as delivered by the transport's `recv`
logger callback.  `contact` models `headers.contact?.[0]?.uri`. -/
structure SIPResponse where
  status : Nat
  reason : String
  to_ : NameAddr
  from_ : NameAddr
  callIdHdr : String
  cseqMethod : String
  cseqSeq : Nat
  via : List SIPVia
  contact : Option String
deriving DecidableEq, Repr

/-- The `SIPDialog` interface (lines 15-22).  `local_`/`from_` carry a
trailing underscore because `local` and `from` are reserved words in
Lean; `remote` is a total `NameAddr`, mirroring that the code always
assigns it (from the INVITE's To at creation, from a response's To on
200) and never null. -/
structure SIPDialog where
  local_ : NameAddr
  remote : NameAddr
  routeSet : List String
  cseq : Nat
  inviteRequest : SIPRequest
  lastResponse : Option SIPResponse
deriving DecidableEq, Repr

/-- The `SIPCall` interface (lines 24-33). -/
structure SIPCall where
  callId : String
  toNumber : String
  fromNumber : String
  dialog : Option SIPDialog
  status : CallStatus
  startTime : Nat
  endTime : Option Nat
  error : Option String
deriving DecidableEq, Repr

/-- The configuration fields of the service that the modelled operations
read (`sipUsername`, `sipServer`, ...).  `nodeEnv` models
`process.env.NODE_ENV` (absent = `none`). -/
structure SIPConfig where
  sipUsername : String
  sipServer : String
  sipPort : Nat
  clientPort : Nat
  transport : String
  signalingHost : String
  fromNumber : String
  nodeEnv : Option String
deriving DecidableEq, Repr

/-- `toNumber.replace(/[^\d]/g, '')` (line 414). -/
def cleanPhoneNumber (s : String) : String :=
  ⟨s.data.filter Char.isDigit⟩

/-- The contact URI built at lines 438-440 (and 340-342). -/
def contactUriFor (cfg : SIPConfig) : String :=
  if cfg.transport = "TCP" then
    "sip:" ++ cfg.sipUsername ++ "@" ++ cfg.signalingHost ++ ":" ++
      toString cfg.clientPort ++ ";transport=tcp"
  else
    "sip:" ++ cfg.sipUsername ++ "@" ++ cfg.signalingHost ++ ":" ++
      toString cfg.clientPort

/-- `createSDP` (lines 842-859); `sessionId` is `Date.now()`. -/
def createSDP (cfg : SIPConfig) (sessionId : Nat) : String :=
  "v=0\r\n" ++
  "o=- " ++ toString sessionId ++ " 1 IN IP4 " ++ cfg.signalingHost ++ "\r\n" ++
  "s=Abmix Call\r\n" ++
  "c=IN IP4 " ++ cfg.signalingHost ++ "\r\n" ++
  "t=0 0\r\n" ++
  "m=audio 8000 RTP/AVP 0 8 101\r\n" ++
  "a=rtpmap:0 PCMU/8000\r\n" ++
  "a=rtpmap:8 PCMA/8000\r\n" ++
  "a=rtpmap:101 telephone-event/8000\r\n" ++
  "a=sendrecv\r\n"

/-- The INVITE request built in `makeCall` (lines 442-464).
`cleanNum` is the already-normalized destination. -/
def buildInvite (cfg : SIPConfig) (cleanNum callId tag branch : String)
    (now : Nat) : SIPRequest :=
  { method := "INVITE"
  , uri := "sip:" ++ cleanNum ++ "@" ++ cfg.sipServer ++ ":" ++ toString cfg.sipPort
  , to_ := { uri := "sip:" ++ cleanNum ++ "@" ++ cfg.sipServer, tag := none }
  , from_ := { uri := "sip:" ++ cfg.sipUsername ++ "@" ++ cfg.sipServer
             , tag := some tag }
  , callIdHdr := callId
  , cseqMethod := "INVITE"
  , cseqSeq := 1
  , via := [ { version := "2.0", protocol := cfg.transport
             , host := cfg.signalingHost, port := cfg.clientPort
             , branch := branch } ]
  , contact := some (contactUriFor cfg)
  , contentType := some "application/sdp"
  , content := some (createSDP cfg now)
  , expires := none
  , signed := false }

/-- The call record as `makeCall` (lines 409-478) leaves it right after
inserting it into `activeCalls` and attaching the dialog: status
`initiating`, dialog present with `local`/`remote` taken from the
INVITE's From/To, `cseq = 1`, and the INVITE retained.  (The insertion
and the dialog assignment are a single synchronous block, so no event
can observe the record without its dialog.) -/
def makeCallState (cfg : SIPConfig) (toNumber callId tag branch : String)
    (now : Nat) : SIPCall :=
  let clean := cleanPhoneNumber toNumber
  let inv := buildInvite cfg clean callId tag branch now
  { callId := callId
  , toNumber := clean
  , fromNumber := cfg.fromNumber
  , dialog := some
      { local_ := inv.from_
      , remote := inv.to_
      , routeSet := []
      , cseq := 1
      , inviteRequest := inv
      , lastResponse := none }
  , status := CallStatus.initiating
  , startTime := now
  , endTime := none
  , error := none }

/-- `sendAck` (lines 812-840): ACK to the 200's contact URI, falling
back to the response's From URI; Via reused from the stored INVITE when
a dialog exists, else from the response. -/
def sendAck (call : SIPCall) (resp : SIPResponse) : SIPRequest :=
  let contactUri := resp.contact.getD resp.from_.uri
  { method := "ACK"
  , uri := contactUri
  , to_ := resp.to_
  , from_ := resp.from_
  , callIdHdr := call.callId
  , cseqMethod := "ACK"
  , cseqSeq := resp.cseqSeq
  , via := match call.dialog with
           | some d => d.inviteRequest.via
           | none => resp.via
  , contact := none
  , contentType := none
  , content := none
  , expires := none
  , signed := false }

/-- `reInviteWithAuth` (lines 510-573): clone the stored INVITE, bump
the dialog cseq, sign it, store it back, and send.  `reSendErr` is the
`sip.send` completion callback's error (`none` = sent fine, in which
case the callback sets status `ringing`). -/
def reInviteWithAuthStep (call : SIPCall) (reSendErr : Option String)
    (now : Nat) : SIPCall × List SIPRequest :=
  match call.dialog with
  | none =>
      ({ call with status := CallStatus.failed,
                   error := some "Cannot re-authenticate without original INVITE",
                   endTime := some now }, [])
  | some d =>
      let newSeq := d.cseq + 1
      let reInv := { d.inviteRequest with cseqSeq := newSeq, signed := true }
      let d2 := { d with cseq := newSeq, inviteRequest := reInv }
      match reSendErr with
      | none =>
          ({ call with dialog := some d2, status := CallStatus.ringing }, [reInv])
      | some e =>
          ({ call with dialog := some d2, status := CallStatus.failed,
                       error := some e, endTime := some now }, [reInv])

/-- The per-call part of `handleIncomingMessage` (lines 726-781): the
switch over the response status for a tracked call.  REGISTER responses
never reach this code because the router returns early for them (line
723); that early return is the first guard here. -/
def handleCallResponse (call : SIPCall) (msg : SIPResponse)
    (reSendErr : Option String) (now : Nat) : SIPCall × List SIPRequest :=
  if msg.cseqMethod = "REGISTER" then (call, [])
  else if msg.status = 100 then (call, [])
  else if msg.status = 180 ∨ msg.status = 183 then
    ({ call with status := CallStatus.ringing }, [])
  else if msg.status = 200 then
    if msg.cseqMethod = "INVITE" then
      match call.dialog with
      | some d =>
          let d2 := { d with lastResponse := some msg,
                             remote := msg.to_, local_ := msg.from_ }
          let c2 := { call with status := CallStatus.answered, dialog := some d2 }
          (c2, [sendAck c2 msg])
      | none =>
          let c2 := { call with status := CallStatus.answered }
          (c2, [sendAck c2 msg])
    else (call, [])
  else if msg.status = 401 ∨ msg.status = 407 then
    if msg.cseqMethod = "INVITE" then reInviteWithAuthStep call reSendErr now
    else (call, [])
  else if msg.status = 486 then
    ({ call with status := CallStatus.ended, error := some "Busy",
                 endTime := some now }, [])
  else if msg.status = 487 then
    ({ call with status := CallStatus.ended, endTime := some now }, [])
  else if 400 ≤ msg.status then
    ({ call with status := CallStatus.failed,
                 error := some (toString msg.status ++ " " ++ msg.reason),
                 endTime := some now }, [])
  else (call, [])

/-- The per-call body of `hangup` (lines 582-636): BYE when answered
with a stored final response, CANCEL when ringing/initiating with a
stored INVITE, nothing otherwise; in every case status is forced to
`ended` and the end time recorded. -/
def hangupCall (call : SIPCall) (now : Nat) : SIPCall × List SIPRequest :=
  let sent : List SIPRequest :=
    if call.status = CallStatus.answered then
      match call.dialog with
      | some d =>
          match d.lastResponse with
          | some resp =>
              [ { method := "BYE"
                , uri := resp.contact.getD d.remote.uri
                , to_ := d.remote
                , from_ := d.local_
                , callIdHdr := call.callId
                , cseqMethod := "BYE"
                , cseqSeq := d.cseq + 1
                , via := d.inviteRequest.via
                , contact := none, contentType := none, content := none
                , expires := none, signed := false } ]
          | none => []
      | none => []
    else if call.status = CallStatus.ringing ∨ call.status = CallStatus.initiating then
      match call.dialog with
      | some d =>
          [ { method := "CANCEL"
            , uri := d.inviteRequest.uri
            , to_ := d.inviteRequest.to_
            , from_ := d.inviteRequest.from_
            , callIdHdr := call.callId
            , cseqMethod := "CANCEL"
            , cseqSeq := d.inviteRequest.cseqSeq
            , via := d.inviteRequest.via
            , contact := none, contentType := none, content := none
            , expires := none, signed := false } ]
      | none => []
    else []
  ({ call with status := CallStatus.ended, endTime := some now }, sent)

/-- `sendDTMF` (lines 643-684).  The guard mirrors
`!call.dialog || call.status !== 'answered'`; an answered call without
a stored last response would make the source throw on
`lastResponse.headers` and return `false` from the catch, with no state
change. -/
def sendDTMFCall (call : SIPCall) (digits : String) :
    Bool × SIPCall × List SIPRequest :=
  match call.dialog with
  | none => (false, call, [])
  | some d =>
      if call.status = CallStatus.answered then
        match d.lastResponse with
        | none => (false, call, [])
        | some resp =>
            let info : SIPRequest :=
              { method := "INFO"
              , uri := resp.contact.getD d.remote.uri
              , to_ := d.remote
              , from_ := d.local_
              , callIdHdr := call.callId
              , cseqMethod := "INFO"
              , cseqSeq := d.cseq + 1
              , via := d.inviteRequest.via
              , contact := none
              , contentType := some "application/dtmf-relay"
              , content := some ("Signal=" ++ digits ++ "\r\nDuration=100")
              , expires := none, signed := false }
            (true, { call with dialog := some { d with cseq := d.cseq + 1 } }, [info])
      else (false, call, [])

/-- The per-call part of `handleIncomingRequest` for an inbound BYE
(lines 788-796): the call is marked ended.  (The 200 OK reply mirroring
the inbound headers is sent unconditionally by the source but carries
no call state, so it is not tracked here.) -/
def handleByeForCall (call : SIPCall) (now : Nat) : SIPCall :=
  { call with status := CallStatus.ended, endTime := some now }

/-- The events that can touch one tracked call: an inbound response
(with the send outcome of the re-INVITE it may trigger), the completion
callback of the original INVITE send, an explicit `hangup`, a
`sendDTMF`, and an inbound BYE. -/
inductive CallEvent where
  | response (msg : SIPResponse) (reSendErr : Option String) (now : Nat)
  | inviteSendResult (err : Option String) (now : Nat)
  | hangupEv (now : Nat)
  | dtmf (digits : String)
  | inboundBye (now : Nat)
deriving DecidableEq, Repr

/-- One event applied to one call: the new call record and the SIP
requests handed to the transport while processing it.  The
`inviteSendResult` case is the `sip.send` callback of `makeCall`
(lines 489-499): error → `failed`, success → `ringing`. -/
def callStep (call : SIPCall) (e : CallEvent) : SIPCall × List SIPRequest :=
  match e with
  | CallEvent.response msg reSendErr now => handleCallResponse call msg reSendErr now
  | CallEvent.inviteSendResult err now =>
      match err with
      | some es =>
          ({ call with status := CallStatus.failed, error := some es,
                       endTime := some now }, [])
      | none => ({ call with status := CallStatus.ringing }, [])
  | CallEvent.hangupEv now => hangupCall call now
  | CallEvent.dtmf digits =>
      let r := sendDTMFCall call digits
      (r.2.1, r.2.2)
  | CallEvent.inboundBye now => (handleByeForCall call now, [])

/-- A sequence of events applied to one call, collecting every request
sent along the way, in order. -/
def runCall (call : SIPCall) : List CallEvent → SIPCall × List SIPRequest
  | [] => (call, [])
  | e :: es =>
      let r := callStep call e
      let rest := runCall r.1 es
      (rest.1, r.2 ++ rest.2)

/-- `activeCalls.get` over the registry modelled as an association
list. -/
def lookupCall : List (String × SIPCall) → String → Option SIPCall
  | [], _ => none
  | p :: ps, cid => if p.1 = cid then some p.2 else lookupCall ps cid

/-- In-place mutation of the call object held by the registry. -/
def updateCall : List (String × SIPCall) → String → SIPCall →
    List (String × SIPCall)
  | [], _, _ => []
  | p :: ps, cid, c =>
      if p.1 = cid then (p.1, c) :: ps else p :: updateCall ps cid c

/-- `hangup(callId)` at the service level (lines 575-641): `false` and
no change for an unknown call-id, otherwise `hangupCall` on the found
record and `true`. -/
def hangupService (calls : List (String × SIPCall)) (cid : String)
    (now : Nat) : Bool × List (String × SIPCall) × List SIPRequest :=
  match lookupCall calls cid with
  | none => (false, calls, [])
  | some call =>
      let r := hangupCall call now
      (true, updateCall calls cid r.1, r.2)

/-! ### Registration manager -/

/-- An application of the outstanding registration future's `resolve`
or `reject` callback. -/
inductive FutureAction where
  | resolve
  | reject (msg : String)
deriving DecidableEq, Repr

/-- The registration-related fields of the service:
`registered`, `registrationAttempts`, `maxRegistrationAttempts`
(hardcoded 3), whether `registrationResolve`/`registrationReject` are
still non-null, and the `authSession` record reused across REGISTER
attempts (lines 51-59, 328-334). -/
structure RegState where
  registered : Bool
  registrationAttempts : Nat
  maxRegistrationAttempts : Nat
  registrationResolve : Bool
  registrationReject : Bool
  authCallId : Option String
  authTag : Option String
  authCseq : Nat
deriving DecidableEq, Repr

/-- The registration timeout in milliseconds (line 270): longer for
production and for TCP. -/
def timeoutMs (cfg : SIPConfig) : Nat :=
  if cfg.nodeEnv = some "production" then
    (if cfg.transport = "TCP" then 30000 else 20000)
  else
    (if cfg.transport = "TCP" then 15000 else 10000)

/-- The development-specific guidance block (lines 291-295). -/
def devGuidance : String :=
  "\n\n⚠️  REPLIT LIMITATION: UDP ports are blocked in development.\n" ++
  "Solutions:\n" ++
  "1. Set SIP_USE_TCP=true to try TCP (may not work with all providers)\n" ++
  "2. Deploy to production (EasyPanel/VPS) where UDP works\n" ++
  "3. Test locally with Docker\n"

/-- The production-specific guidance block (lines 297-302). -/
def prodGuidance : String :=
  "\n\n🔧 PRODUCTION TROUBLESHOOTING:\n" ++
  "1. Check if UDP port 5060 is accessible from EasyPanel\n" ++
  "2. Verify FALEVONO_PASSWORD is correct\n" ++
  "3. Try TCP fallback: Set SIP_USE_TCP=true\n" ++
  "4. Check if SIP server vono2.me:5060 is reachable\n" ++
  "5. Check network connectivity to vono2.me\n"

/-- The timeout rejection message (lines 287-303):
`process.env.NODE_ENV || 'production'` selects the guidance block. -/
def timeoutErrorMsg (cfg : SIPConfig) (attempts : Nat) : String :=
  "SIP registration timeout after " ++ toString (timeoutMs cfg / 1000) ++
  " seconds (" ++ toString attempts ++ " attempts)" ++
  (if cfg.nodeEnv.getD "production" = "development" then devGuidance
   else prodGuidance)

/-- `register(authChallenge?)` (lines 318-391): a re-registration
(challenge present) does not count as a fresh attempt; the auth
session's call-id/tag are reused when present and its cseq is always
incremented by one; the request is signed exactly when a challenge was
supplied. -/
def registerStep (cfg : SIPConfig) (st : RegState) (challenge : Bool)
    (freshCallId freshTag : String) : RegState × SIPRequest :=
  let attempts :=
    if challenge then st.registrationAttempts else st.registrationAttempts + 1
  let callId := st.authCallId.getD freshCallId
  let tag := st.authTag.getD freshTag
  let cseq := st.authCseq + 1
  ({ st with registrationAttempts := attempts,
             authCallId := some callId,
             authTag := some tag,
             authCseq := cseq }
  , { method := "REGISTER"
    , uri := "sip:" ++ cfg.sipServer ++ ":" ++ toString cfg.sipPort
    , to_ := { uri := "sip:" ++ cfg.sipUsername ++ "@" ++ cfg.sipServer, tag := none }
    , from_ := { uri := "sip:" ++ cfg.sipUsername ++ "@" ++ cfg.sipServer
               , tag := some tag }
    , callIdHdr := callId
    , cseqMethod := "REGISTER"
    , cseqSeq := cseq
    , via := []
    , contact := some (contactUriFor cfg)
    , contentType := none
    , content := none
    , expires := some 3600
    , signed := challenge })

/-- Events touching the registration state: a REGISTER response and the
registration timeout firing.  Fresh ids are supplied for the
`randomUUID()` calls a retry may make.  The source arms exactly one
`setTimeout` per initialization (line 274), so a faithful trace
contains at most one `timer` event. -/
inductive RegEvent where
  | resp (status : Nat) (freshCallId freshTag : String)
  | timer (freshCallId freshTag : String)
deriving DecidableEq, Repr

/-- One registration event: the new state, the future actions applied,
and the REGISTER requests sent.  Mirrors the REGISTER branch of
`handleIncomingMessage` (lines 700-724) and the timeout body
(lines 274-307): the handler paths null the callbacks after use, while
the timeout body calls its captured `reject` unguarded once the attempt
ceiling is reached. -/
def regStep (cfg : SIPConfig) (st : RegState) :
    RegEvent → RegState × List FutureAction × List SIPRequest
  | RegEvent.resp status fc ft =>
      if status = 401 ∨ status = 407 then
        let r := registerStep cfg st true fc ft
        (r.1, [], [r.2])
      else if status = 200 then
        let st1 := { st with registered := true }
        if st.registrationResolve then
          ({ st1 with registrationResolve := false, registrationReject := false },
           [FutureAction.resolve], [])
        else (st1, [], [])
      else
        if st.registrationReject then
          ({ st with registrationResolve := false, registrationReject := false },
           [FutureAction.reject ("Registration failed with status " ++ toString status)],
           [])
        else (st, [], [])
  | RegEvent.timer fc ft =>
      if st.registered then (st, [], [])
      else if st.registrationAttempts < st.maxRegistrationAttempts then
        let r := registerStep cfg st false fc ft
        (r.1, [], [r.2])
      else
        (st, [FutureAction.reject (timeoutErrorMsg cfg st.registrationAttempts)], [])

/-- A sequence of registration events, collecting every future action
applied along the way. -/
def regRun (cfg : SIPConfig) (st : RegState) :
    List RegEvent → RegState × List FutureAction
  | [] => (st, [])
  | e :: es =>
      let r := regStep cfg st e
      let rest := regRun cfg r.1 es
      (rest.1, r.2.1 ++ rest.2)

/-- How many times the registration timeout fires in a trace (the
source arms it once, so faithful traces have at most one). -/
def countTimer (evs : List RegEvent) : Nat :=
  evs.countP fun e => match e with
    | RegEvent.timer _ _ => true
    | _ => false

/-- The registration fields before `initialize` runs: not registered,
no attempts, ceiling 3, both future callbacks armed, empty auth
session. -/
def blankRegState : RegState :=
  { registered := false
  , registrationAttempts := 0
  , maxRegistrationAttempts := 3
  , registrationResolve := true
  , registrationReject := true
  , authCallId := none
  , authTag := none
  , authCseq := 0 }

/-- The registration state right after `initialize` created the future
and issued the first REGISTER (attempt 1). -/
def initRegState (cfg : SIPConfig) (cid tag : String) : RegState :=
  (registerStep cfg blankRegState false cid tag).1

/-! ### Spec-side definitions -/

/-- Modelled from the spec (§4.2): the legal status edges
`initiating → ringing → answered → ended`,
`initiating|ringing → failed`, and
`answered|ringing|initiating → ended`; `ended` and `failed` are
terminal, with no outgoing edge. -/
def legalEdge : CallStatus → CallStatus → Bool
  | CallStatus.initiating, CallStatus.ringing => true
  | CallStatus.ringing, CallStatus.answered => true
  | CallStatus.initiating, CallStatus.failed => true
  | CallStatus.ringing, CallStatus.failed => true
  | CallStatus.answered, CallStatus.ended => true
  | CallStatus.ringing, CallStatus.ended => true
  | CallStatus.initiating, CallStatus.ended => true
  | _, _ => false

/-- In-dialog requests that advance the dialog cseq counter when sent:
INFO and the (re-)INVITE produced on an auth challenge. -/
def coreAdvancing (r : SIPRequest) : Bool :=
  r.method = "INFO" || r.method = "INVITE"

/-- In-dialog requests claimed to carry increasing sequence numbers
and actually issued above the counter: INFO, re-INVITE and BYE
(CANCEL deliberately mirrors the stored INVITE's cseq instead). -/
def coreOrdered (r : SIPRequest) : Bool :=
  coreAdvancing r || r.method = "BYE"

/-- The ordering relation for sent requests: any cseq-advancing request
sent earlier carries a strictly smaller sequence number than any
ordered request sent later. -/
def ReqOrder (a b : SIPRequest) : Prop :=
  coreAdvancing a = true → coreOrdered b = true → a.cseqSeq < b.cseqSeq


/-! ### Concrete fixtures for counterexamples and witnesses -/

/-- A concrete service configuration (UDP, no NODE_ENV). -/
def demoCfg : SIPConfig :=
  { sipUsername := "100158"
  , sipServer := "vono2.me"
  , sipPort := 5060
  , clientPort := 7060
  , transport := "UDP"
  , signalingHost := "203.0.113.5"
  , fromNumber := "100158"
  , nodeEnv := none }

/-- A concrete inbound response with the given status and CSeq method. -/
def mkResp (status : Nat) (method : String) : SIPResponse :=
  { status := status
  , reason := "Reason"
  , to_ := { uri := "sip:5550123@vono2.me", tag := some "remotetag" }
  , from_ := { uri := "sip:100158@vono2.me", tag := some "tag0" }
  , callIdHdr := "cid0"
  , cseqMethod := method
  , cseqSeq := 1
  , via := []
  , contact := some "sip:5550123@gw.vono2.me:5080" }

/-- The call record `makeCall` produces for the demo configuration. -/
def demoCall0 : SIPCall :=
  makeCallState demoCfg "555-0123" "cid0" "tag0" "br0" 0

/-- The dialog `makeCall` attaches to `demoCall0`. -/
def demoDialog0 : SIPDialog :=
  { local_ := (buildInvite demoCfg "5550123" "cid0" "tag0" "br0" 0).from_
  , remote := (buildInvite demoCfg "5550123" "cid0" "tag0" "br0" 0).to_
  , routeSet := []
  , cseq := 1
  , inviteRequest := buildInvite demoCfg "5550123" "cid0" "tag0" "br0" 0
  , lastResponse := none }

/-- A concrete answered call holding a dialog with a stored 200. -/
def demoAnswered : SIPCall :=
  { callId := "cA"
  , toNumber := "5550123"
  , fromNumber := "100158"
  , dialog := some { demoDialog0 with lastResponse := some (mkResp 200 "INVITE")
                                    , remote := (mkResp 200 "INVITE").to_
                                    , local_ := (mkResp 200 "INVITE").from_ }
  , status := CallStatus.answered
  , startTime := 0
  , endTime := none
  , error := none }

/-- A concrete ringing call still holding its original INVITE. -/
def demoRinging : SIPCall :=
  { callId := "cR"
  , toNumber := "5550123"
  , fromNumber := "100158"
  , dialog := some demoDialog0
  , status := CallStatus.ringing
  , startTime := 0
  , endTime := none
  , error := none }

/-- A concrete call already in the terminal state `failed`. -/
def demoFailed : SIPCall :=
  { callId := "cF"
  , toNumber := "5550123"
  , fromNumber := "100158"
  , dialog := none
  , status := CallStatus.failed
  , startTime := 0
  , endTime := some 3
  , error := some "500 Reason" }

/-- The demo call registry. -/
def demoCalls : List (String × SIPCall) :=
  [("cA", demoAnswered), ("cR", demoRinging), ("cF", demoFailed)]

/-! ### Shared lemmas -/

/-- Looking a call up after mutating it in place yields the mutated
record. -/
theorem lookupCall_updateCall (calls : List (String × SIPCall)) (cid : String)
    (c c2 : SIPCall) (h : lookupCall calls cid = some c) :
    lookupCall (updateCall calls cid c2) cid = some c2 := by
  induction calls with
  | nil => simp [lookupCall] at h
  | cons p ps ih =>
      by_cases hp : p.1 = cid
      · simp [lookupCall, updateCall, hp]
      · simp only [lookupCall, updateCall, hp, if_false] at h ⊢
        exact ih h

/-! ### Claim C1 (counterexample) -/

/-- Claim C1 counterexample: a call hung up from `initiating` is in the
terminal state `ended`, yet a late 180 response moves it back to
`ringing` — the response handler never checks the current status, so an
event does move a call out of a terminal state, along an edge the spec
forbids. -/
theorem late180_revives_ended_call :
    (callStep demoCall0 (CallEvent.hangupEv 1)).1.status = CallStatus.ended ∧
    (callStep (callStep demoCall0 (CallEvent.hangupEv 1)).1
        (CallEvent.response (mkResp 180 "INVITE") none 2)).1.status
      = CallStatus.ringing ∧
    legalEdge CallStatus.ended CallStatus.ringing = false :=
  ⟨rfl, rfl, rfl⟩

/-! ### Claim C5 -/

/-- Claim C5 counterexample: on a 486 response the code sets the call's
status to `ended`, not `failed` (the error text is `"Busy"`). -/
theorem busy486_sets_ended_not_failed :
    (callStep demoCall0 (CallEvent.response (mkResp 486 "INVITE") none 7)).1.status
      = CallStatus.ended ∧
    (callStep demoCall0 (CallEvent.response (mkResp 486 "INVITE") none 7)).1.status
      ≠ CallStatus.failed ∧
    (callStep demoCall0 (CallEvent.response (mkResp 486 "INVITE") none 7)).1.error
      = some "Busy" :=
  ⟨rfl, by decide, rfl⟩

/-- Claim C5 (amended): for every tracked call whose transaction
receives a 486 response, the status becomes `ended` (not `failed`), the
stored error text becomes "Busy", and the end time is recorded. -/
theorem busy486_amended (call : SIPCall) (msg : SIPResponse)
    (reSendErr : Option String) (now : Nat)
    (h486 : msg.status = 486) (hm : msg.cseqMethod ≠ "REGISTER") :
    (callStep call (CallEvent.response msg reSendErr now)).1.status
      = CallStatus.ended ∧
    (callStep call (CallEvent.response msg reSendErr now)).1.error
      = some "Busy" ∧
    (callStep call (CallEvent.response msg reSendErr now)).1.endTime
      = some now := by
  simp [callStep, handleCallResponse, h486, hm]

/-- Witness for `busy486_amended` at a concrete call and response. -/
theorem busy486_amended_witness :
    (callStep demoCall0 (CallEvent.response (mkResp 486 "INVITE") none 7)).1.status
      = CallStatus.ended ∧
    (callStep demoCall0 (CallEvent.response (mkResp 486 "INVITE") none 7)).1.error
      = some "Busy" ∧
    (callStep demoCall0 (CallEvent.response (mkResp 486 "INVITE") none 7)).1.endTime
      = some 7 :=
  busy486_amended demoCall0 (mkResp 486 "INVITE") none 7 rfl (by decide)

/-! ### Claim C10 -/

/-- Claim C10: when the INVITE send (or the re-authenticated INVITE
send) completes without a transport error, the call's status is set to
`ringing` immediately — with no 180/183 event having occurred: the
fresh call is `initiating` and the send-completion event alone makes it
`ringing`. -/
theorem invite_send_sets_ringing (cfg : SIPConfig)
    (toN cid tag branch : String) (now now2 : Nat)
    (call : SIPCall) (d : SIPDialog) (msg : SIPResponse) (n : Nat)
    (hd : call.dialog = some d)
    (h401 : msg.status = 401 ∨ msg.status = 407)
    (hm : msg.cseqMethod = "INVITE") :
    (makeCallState cfg toN cid tag branch now).status = CallStatus.initiating ∧
    (callStep (makeCallState cfg toN cid tag branch now)
        (CallEvent.inviteSendResult none now2)).1.status = CallStatus.ringing ∧
    (callStep call (CallEvent.response msg none n)).1.status
      = CallStatus.ringing := by
  refine ⟨rfl, rfl, ?_⟩
  have hreg : ¬ msg.cseqMethod = "REGISTER" := by rw [hm]; decide
  rcases h401 with h | h <;>
    simp [callStep, handleCallResponse, reInviteWithAuthStep, h, hm, hd, hreg]

/-- Witness for `invite_send_sets_ringing` at concrete inputs. -/
theorem invite_send_sets_ringing_witness :
    (makeCallState demoCfg "555-0123" "cid0" "tag0" "br0" 0).status
      = CallStatus.initiating ∧
    (callStep (makeCallState demoCfg "555-0123" "cid0" "tag0" "br0" 0)
        (CallEvent.inviteSendResult none 1)).1.status = CallStatus.ringing ∧
    (callStep demoRinging
        (CallEvent.response (mkResp 401 "INVITE") none 2)).1.status
      = CallStatus.ringing :=
  invite_send_sets_ringing demoCfg "555-0123" "cid0" "tag0" "br0" 0 1
    demoRinging demoDialog0 (mkResp 401 "INVITE") 2 rfl (Or.inl rfl) rfl

/-! ### Claim C4 -/

/-- Claim C4: for a tracked call with a dialog, a 200 response whose
CSeq method is INVITE makes the status `answered`, overwrites the
dialog's remote identity with the response's To and its local identity
with the response's From, retains the response as the last response,
and sends an ACK immediately, addressed to the 200's contact URI
(falling back to the response's From URI) and reusing the Via set of
the stored INVITE. -/
theorem invite200_answered_ack (call : SIPCall) (d : SIPDialog)
    (msg : SIPResponse) (reSendErr : Option String) (now : Nat)
    (hd : call.dialog = some d)
    (h200 : msg.status = 200) (hm : msg.cseqMethod = "INVITE") :
    (callStep call (CallEvent.response msg reSendErr now)).1.status
      = CallStatus.answered ∧
    (callStep call (CallEvent.response msg reSendErr now)).1.dialog
      = some { d with lastResponse := some msg
                    , remote := msg.to_, local_ := msg.from_ } ∧
    (callStep call (CallEvent.response msg reSendErr now)).2
      = [⟨"ACK", msg.contact.getD msg.from_.uri, msg.to_, msg.from_,
          call.callId, "ACK", msg.cseqSeq, d.inviteRequest.via,
          none, none, none, none, false⟩] := by
  have hreg : ¬ msg.cseqMethod = "REGISTER" := by rw [hm]; decide
  simp [callStep, handleCallResponse, sendAck, h200, hm, hd, hreg]

/-- Witness for `invite200_answered_ack` at a concrete call and 200. -/
theorem invite200_answered_ack_witness :
    (callStep demoRinging
        (CallEvent.response (mkResp 200 "INVITE") none 4)).1.status
      = CallStatus.answered ∧
    (callStep demoRinging
        (CallEvent.response (mkResp 200 "INVITE") none 4)).1.dialog
      = some { demoDialog0 with lastResponse := some (mkResp 200 "INVITE")
                              , remote := (mkResp 200 "INVITE").to_
                              , local_ := (mkResp 200 "INVITE").from_ } ∧
    (callStep demoRinging
        (CallEvent.response (mkResp 200 "INVITE") none 4)).2
      = [⟨"ACK", (mkResp 200 "INVITE").contact.getD (mkResp 200 "INVITE").from_.uri,
          (mkResp 200 "INVITE").to_, (mkResp 200 "INVITE").from_,
          demoRinging.callId, "ACK", (mkResp 200 "INVITE").cseqSeq,
          demoDialog0.inviteRequest.via, none, none, none, none, false⟩] :=
  invite200_answered_ack demoRinging demoDialog0 (mkResp 200 "INVITE") none 4
    rfl rfl rfl

/-! ### Claim C7 -/

/-- Claim C7: `hangup` returns false and changes nothing for an unknown
call-id; for a tracked call it returns true and forces the record to
`ended` with the end time recorded, sending a BYE to the last
response's contact URI with sequence `dialog.cseq + 1` when the call is
answered, and a CANCEL mirroring the stored INVITE's headers and
sequence when the call is ringing or initiating. -/
theorem hangup_contract (calls : List (String × SIPCall)) (cid : String)
    (now : Nat) :
    (lookupCall calls cid = none →
       hangupService calls cid now = (false, calls, [])) ∧
    (∀ c, lookupCall calls cid = some c →
       (hangupService calls cid now).1 = true ∧
       lookupCall (hangupService calls cid now).2.1 cid
         = some { c with status := CallStatus.ended, endTime := some now } ∧
       (∀ d resp, c.status = CallStatus.answered → c.dialog = some d →
          d.lastResponse = some resp →
          (hangupService calls cid now).2.2
            = [⟨"BYE", resp.contact.getD d.remote.uri, d.remote, d.local_,
                c.callId, "BYE", d.cseq + 1, d.inviteRequest.via,
                none, none, none, none, false⟩]) ∧
       (∀ d, (c.status = CallStatus.ringing ∨ c.status = CallStatus.initiating) →
          c.dialog = some d →
          (hangupService calls cid now).2.2
            = [⟨"CANCEL", d.inviteRequest.uri, d.inviteRequest.to_,
                d.inviteRequest.from_, c.callId, "CANCEL",
                d.inviteRequest.cseqSeq, d.inviteRequest.via,
                none, none, none, none, false⟩])) := by
  constructor
  · intro h
    simp [hangupService, h]
  · intro c h
    refine ⟨by simp [hangupService, h], ?_, ?_, ?_⟩
    · simp only [hangupService, h]
      exact lookupCall_updateCall calls cid c _ h
    · intro d resp hs hd hr
      simp [hangupService, h, hangupCall, hs, hd, hr]
    · intro d hs hd
      rcases hs with hs | hs <;>
        simp [hangupService, h, hangupCall, hs, hd]

/-- Witness for `hangup_contract`: the unknown-id, answered and ringing
cases at concrete inputs. -/
theorem hangup_contract_witness :
    hangupService demoCalls "zz" 5 = (false, demoCalls, []) ∧
    (hangupService demoCalls "cA" 5).1 = true ∧
    lookupCall (hangupService demoCalls "cA" 5).2.1 "cA"
      = some { demoAnswered with status := CallStatus.ended
                               , endTime := some 5 } ∧
    (hangupService demoCalls "cA" 5).2.2
      = [⟨"BYE",
          (mkResp 200 "INVITE").contact.getD
            ({ demoDialog0 with lastResponse := some (mkResp 200 "INVITE")
                              , remote := (mkResp 200 "INVITE").to_
                              , local_ := (mkResp 200 "INVITE").from_ } : SIPDialog).remote.uri,
          ({ demoDialog0 with lastResponse := some (mkResp 200 "INVITE")
                            , remote := (mkResp 200 "INVITE").to_
                            , local_ := (mkResp 200 "INVITE").from_ } : SIPDialog).remote,
          ({ demoDialog0 with lastResponse := some (mkResp 200 "INVITE")
                            , remote := (mkResp 200 "INVITE").to_
                            , local_ := (mkResp 200 "INVITE").from_ } : SIPDialog).local_,
          demoAnswered.callId, "BYE", demoDialog0.cseq + 1,
          demoDialog0.inviteRequest.via, none, none, none, none, false⟩] ∧
    (hangupService demoCalls "cR" 5).2.2
      = [⟨"CANCEL", demoDialog0.inviteRequest.uri, demoDialog0.inviteRequest.to_,
          demoDialog0.inviteRequest.from_, demoRinging.callId, "CANCEL",
          demoDialog0.inviteRequest.cseqSeq, demoDialog0.inviteRequest.via,
          none, none, none, none, false⟩] := by
  refine ⟨(hangup_contract demoCalls "zz" 5).1 rfl, ?_, ?_, ?_, ?_⟩
  · exact ((hangup_contract demoCalls "cA" 5).2 demoAnswered rfl).1
  · exact ((hangup_contract demoCalls "cA" 5).2 demoAnswered rfl).2.1
  · exact ((hangup_contract demoCalls "cA" 5).2 demoAnswered rfl).2.2.1
      _ (mkResp 200 "INVITE") rfl rfl rfl
  · exact ((hangup_contract demoCalls "cR" 5).2 demoRinging rfl).2.2.2
      demoDialog0 (Or.inl rfl) rfl

/-! ### Claim C8 -/

/-- Claim C8 counterexample: `hangup` on a call already in the terminal
state `failed` does not leave the record unchanged — it forces the
status to `ended` and overwrites the end time. -/
theorem hangup_failed_call_mutates :
    (hangupService [("cF", demoFailed)] "cF" 9).2.1
      = [("cF", { demoFailed with status := CallStatus.ended
                                , endTime := some 9 })] ∧
    lookupCall (hangupService [("cF", demoFailed)] "cF" 9).2.1 "cF"
      ≠ some demoFailed ∧
    demoFailed.status = CallStatus.failed := by
  refine ⟨rfl, ?_, rfl⟩
  decide

/-- Claim C8 (amended): `hangup` on a call already in `ended`/`failed`
returns true and sends no SIP message, but it is not a record-level
no-op: the status is forced to `ended` (so a `failed` call moves to
`ended`) and the end time is overwritten; only the error text is left
unchanged. -/
theorem hangup_terminal_amended (calls : List (String × SIPCall))
    (cid : String) (c : SIPCall) (now : Nat)
    (h : lookupCall calls cid = some c)
    (ht : c.status = CallStatus.ended ∨ c.status = CallStatus.failed) :
    (hangupService calls cid now).1 = true ∧
    (hangupService calls cid now).2.2 = [] ∧
    lookupCall (hangupService calls cid now).2.1 cid
      = some { c with status := CallStatus.ended, endTime := some now } ∧
    ({ c with status := CallStatus.ended, endTime := some now } : SIPCall).error
      = c.error := by
  refine ⟨by simp [hangupService, h], ?_, ?_, rfl⟩
  · rcases ht with hs | hs <;> simp [hangupService, h, hangupCall, hs]
  · simp only [hangupService, h]
    exact lookupCall_updateCall calls cid c _ h

/-- Witness for `hangup_terminal_amended` at a concrete failed call. -/
theorem hangup_terminal_amended_witness :
    (hangupService [("cF", demoFailed)] "cF" 9).1 = true ∧
    (hangupService [("cF", demoFailed)] "cF" 9).2.2 = [] ∧
    lookupCall (hangupService [("cF", demoFailed)] "cF" 9).2.1 "cF"
      = some { demoFailed with status := CallStatus.ended
                             , endTime := some 9 } ∧
    ({ demoFailed with status := CallStatus.ended
                     , endTime := some 9 } : SIPCall).error
      = demoFailed.error :=
  hangup_terminal_amended [("cF", demoFailed)] "cF" demoFailed 9
    rfl (Or.inr rfl)


/-! ### Claim C6 -/

/-- Claim C6 counterexample: the initial REGISTER carries sequence
number 1, and the signed REGISTER re-sent after the 401 challenge
carries sequence number 2 — the sequence is incremented by one, not
kept unchanged (sequence+0) as claimed. -/
theorem reauth_register_increments_cseq :
    (registerStep demoCfg blankRegState false "cid0" "tag0").2.cseqSeq = 1 ∧
    ((regStep demoCfg (registerStep demoCfg blankRegState false "cid0" "tag0").1
        (RegEvent.resp 401 "f1" "f2")).2.2.map fun r => r.cseqSeq) = [2] ∧
    ¬ ((regStep demoCfg (registerStep demoCfg blankRegState false "cid0" "tag0").1
        (RegEvent.resp 401 "f1" "f2")).2.2.map fun r => r.cseqSeq)
      = [(registerStep demoCfg blankRegState false "cid0" "tag0").2.cseqSeq] :=
  ⟨rfl, rfl, by decide⟩

/-- Claim C6 (amended): after a 401 challenge the REGISTER is re-sent
signed, in the same registration session (same Call-ID and From tag),
with the sequence number incremented by exactly one (not unchanged);
after a subsequent 200 the service is registered and the future
resolves. -/
theorem reauth_register_amended (cfg : SIPConfig)
    (cid tag fc ft fc2 ft2 : String) :
    ∃ req : SIPRequest,
      (regStep cfg (registerStep cfg blankRegState false cid tag).1
          (RegEvent.resp 401 fc ft)).2.2 = [req] ∧
      req.signed = true ∧
      req.cseqSeq = (registerStep cfg blankRegState false cid tag).2.cseqSeq + 1 ∧
      req.callIdHdr = (registerStep cfg blankRegState false cid tag).2.callIdHdr ∧
      req.from_.tag = (registerStep cfg blankRegState false cid tag).2.from_.tag ∧
      (regStep cfg (regStep cfg (registerStep cfg blankRegState false cid tag).1
            (RegEvent.resp 401 fc ft)).1
          (RegEvent.resp 200 fc2 ft2)).1.registered = true ∧
      (regStep cfg (regStep cfg (registerStep cfg blankRegState false cid tag).1
            (RegEvent.resp 401 fc ft)).1
          (RegEvent.resp 200 fc2 ft2)).2.1 = [FutureAction.resolve] :=
  ⟨_, rfl, rfl, rfl, rfl, rfl, rfl, rfl⟩

/-! ### Claim C9 -/

/-- Claim C9: when the registration timer fires and registration has
not succeeded, an attempt count below the maximum issues a fresh
registration attempt and applies no rejection to the future, while an
attempt count at (or beyond) the maximum rejects the future with the
timeout message; that message ends with the development guidance block
under NODE_ENV=development and with the (different) production guidance
block otherwise. -/
theorem registration_timer_policy (cfg : SIPConfig) (st : RegState)
    (fc ft : String) (a : Nat) (hreg : st.registered = false) :
    (st.registrationAttempts < st.maxRegistrationAttempts →
       (regStep cfg st (RegEvent.timer fc ft)).2.1 = [] ∧
       (regStep cfg st (RegEvent.timer fc ft)).2.2
         = [(registerStep cfg st false fc ft).2] ∧
       (regStep cfg st (RegEvent.timer fc ft)).1.registrationAttempts
         = st.registrationAttempts + 1) ∧
    (st.maxRegistrationAttempts ≤ st.registrationAttempts →
       (regStep cfg st (RegEvent.timer fc ft)).2.1
         = [FutureAction.reject (timeoutErrorMsg cfg st.registrationAttempts)] ∧
       (regStep cfg st (RegEvent.timer fc ft)).2.2 = []) ∧
    (∃ p, timeoutErrorMsg { cfg with nodeEnv := some "development" } a
        = p ++ devGuidance) ∧
    (∃ q, timeoutErrorMsg { cfg with nodeEnv := some "production" } a
        = q ++ prodGuidance) ∧
    devGuidance ≠ prodGuidance := by
  refine ⟨?_, ?_, ?_, ?_, by decide⟩
  · intro h
    refine ⟨?_, ?_, ?_⟩ <;> simp [regStep, registerStep, hreg, h]
  · intro h
    have h2 : ¬ st.registrationAttempts < st.maxRegistrationAttempts :=
      Nat.not_lt.mpr h
    refine ⟨?_, ?_⟩ <;> simp [regStep, hreg, h2]
  · refine ⟨"SIP registration timeout after "
      ++ toString (timeoutMs { cfg with nodeEnv := some "development" } / 1000)
      ++ " seconds (" ++ toString a ++ " attempts)", ?_⟩
    simp [timeoutErrorMsg, String.append_assoc]
  · refine ⟨"SIP registration timeout after "
      ++ toString (timeoutMs { cfg with nodeEnv := some "production" } / 1000)
      ++ " seconds (" ++ toString a ++ " attempts)", ?_⟩
    simp [timeoutErrorMsg, String.append_assoc]

/-- A registration state with the attempt count still below the
maximum. -/
def demoRegBelow : RegState := initRegState demoCfg "rc0" "rt0"

/-- A registration state with the attempt count at the maximum. -/
def demoRegMax : RegState :=
  { demoRegBelow with registrationAttempts := 3 }

/-- Witness for `registration_timer_policy` at concrete states below
and at the attempt ceiling. -/
theorem registration_timer_policy_witness :
    ((regStep demoCfg demoRegBelow (RegEvent.timer "f" "g")).2.1 = [] ∧
     (regStep demoCfg demoRegBelow (RegEvent.timer "f" "g")).2.2
       = [(registerStep demoCfg demoRegBelow false "f" "g").2] ∧
     (regStep demoCfg demoRegBelow (RegEvent.timer "f" "g")).1.registrationAttempts
       = demoRegBelow.registrationAttempts + 1) ∧
    ((regStep demoCfg demoRegMax (RegEvent.timer "f" "g")).2.1
       = [FutureAction.reject (timeoutErrorMsg demoCfg demoRegMax.registrationAttempts)] ∧
     (regStep demoCfg demoRegMax (RegEvent.timer "f" "g")).2.2 = []) ∧
    devGuidance ≠ prodGuidance :=
  ⟨(registration_timer_policy demoCfg demoRegBelow "f" "g" 0 rfl).1 (by decide),
   (registration_timer_policy demoCfg demoRegMax "f" "g" 0 rfl).2.1 (by decide),
   (registration_timer_policy demoCfg demoRegMax "f" "g" 0 rfl).2.2.2.2⟩

/-! ### Claim C2 -/

/-- True of the `resolve` future action. -/
def isResolve : FutureAction → Bool
  | FutureAction.resolve => true
  | FutureAction.reject _ => false

/-- True of a `reject` future action. -/
def isReject : FutureAction → Bool
  | FutureAction.resolve => false
  | FutureAction.reject _ => true

/-- Once both future callbacks are disarmed (nulled), no later
REGISTER response or (single) timer firing applies any further action
to the future. -/
theorem regRun_settled_aux (cfg : SIPConfig) (evs : List RegEvent) :
    ∀ st : RegState,
      st.registrationResolve = false →
      st.registrationReject = false →
      st.maxRegistrationAttempts = 3 →
      st.registrationAttempts + countTimer evs ≤ 2 →
      (regRun cfg st evs).2 = [] := by
  induction evs with
  | nil => intro st _ _ _ _; rfl
  | cons e es ih =>
      intro st hres hrej h2 h3
      cases e with
      | resp status fc ft =>
          have hct : countTimer (RegEvent.resp status fc ft :: es)
              = countTimer es := by
            simp [countTimer, List.countP_cons]
          rw [hct] at h3
          by_cases h401 : status = 401 ∨ status = 407
          · have hstep : regStep cfg st (RegEvent.resp status fc ft)
                = ((registerStep cfg st true fc ft).1, [],
                   [(registerStep cfg st true fc ft).2]) := by
              simp [regStep, h401]
            simp only [regRun, hstep, List.nil_append]
            exact ih _ (by simpa [registerStep] using hres)
              (by simpa [registerStep] using hrej)
              (by simpa [registerStep] using h2)
              (by simpa [registerStep] using h3)
          · by_cases h200 : status = 200
            · have hstep : regStep cfg st (RegEvent.resp status fc ft)
                  = ({ st with registered := true }, [], []) := by
                simp [regStep, h401, h200, hres]
              simp only [regRun, hstep, List.nil_append]
              exact ih _ (by simpa using hres) (by simpa using hrej)
                (by simpa using h2) (by simpa using h3)
            · have hstep : regStep cfg st (RegEvent.resp status fc ft)
                  = (st, [], []) := by
                simp [regStep, h401, h200, hrej]
              simp only [regRun, hstep, List.nil_append]
              exact ih st hres hrej h2 h3
      | timer fc ft =>
          have hct : countTimer (RegEvent.timer fc ft :: es)
              = countTimer es + 1 := by
            simp [countTimer, List.countP_cons]
          rw [hct] at h3
          cases hrg : st.registered with
          | true =>
              have hstep : regStep cfg st (RegEvent.timer fc ft)
                  = (st, [], []) := by
                simp [regStep, hrg]
              simp only [regRun, hstep, List.nil_append]
              exact ih st hres hrej h2 (by omega)
          | false =>
              have hlt : st.registrationAttempts
                  < st.maxRegistrationAttempts := by omega
              have hstep : regStep cfg st (RegEvent.timer fc ft)
                  = ((registerStep cfg st false fc ft).1, [],
                     [(registerStep cfg st false fc ft).2]) := by
                simp [regStep, hrg, hlt]
              simp only [regRun, hstep, List.nil_append]
              exact ih _ (by simpa [registerStep] using hres)
                (by simpa [registerStep] using hrej)
                (by simpa [registerStep] using h2)
                (by simp [registerStep]; omega)

/-- While both future callbacks are armed, any sequence of REGISTER
responses and at most the remaining timer budget applies at most one
future action: the first settling response disarms both callbacks and
everything after it is covered by `regRun_settled_aux`. -/
theorem regRun_armed_aux (cfg : SIPConfig) (evs : List RegEvent) :
    ∀ st : RegState,
      st.registrationResolve = true →
      st.registrationReject = true →
      st.maxRegistrationAttempts = 3 →
      st.registrationAttempts + countTimer evs ≤ 2 →
      ((regRun cfg st evs).2).length ≤ 1 := by
  induction evs with
  | nil => intro st _ _ _ _; simp [regRun]
  | cons e es ih =>
      intro st hres hrej h2 h3
      cases e with
      | resp status fc ft =>
          have hct : countTimer (RegEvent.resp status fc ft :: es)
              = countTimer es := by
            simp [countTimer, List.countP_cons]
          rw [hct] at h3
          by_cases h401 : status = 401 ∨ status = 407
          · have hstep : regStep cfg st (RegEvent.resp status fc ft)
                = ((registerStep cfg st true fc ft).1, [],
                   [(registerStep cfg st true fc ft).2]) := by
              simp [regStep, h401]
            simp only [regRun, hstep, List.nil_append]
            exact ih _ (by simpa [registerStep] using hres)
              (by simpa [registerStep] using hrej)
              (by simpa [registerStep] using h2)
              (by simpa [registerStep] using h3)
          · by_cases h200 : status = 200
            · have hstep : regStep cfg st (RegEvent.resp status fc ft)
                  = ({ st with registered := true
                             , registrationResolve := false
                             , registrationReject := false },
                     [FutureAction.resolve], []) := by
                simp [regStep, h401, h200, hres]
              have hrest := regRun_settled_aux cfg es
                { st with registered := true
                        , registrationResolve := false
                        , registrationReject := false }
                rfl rfl (by simpa using h2) (by simpa using h3)
              simp only [regRun, hstep, hrest]
              simp
            · have hstep : regStep cfg st (RegEvent.resp status fc ft)
                  = ({ st with registrationResolve := false
                             , registrationReject := false },
                     [FutureAction.reject
                        ("Registration failed with status " ++ toString status)],
                     []) := by
                simp [regStep, h401, h200, hrej]
              have hrest := regRun_settled_aux cfg es
                { st with registrationResolve := false
                        , registrationReject := false }
                rfl rfl (by simpa using h2) (by simpa using h3)
              simp only [regRun, hstep, hrest]
              simp
      | timer fc ft =>
          have hct : countTimer (RegEvent.timer fc ft :: es)
              = countTimer es + 1 := by
            simp [countTimer, List.countP_cons]
          rw [hct] at h3
          cases hrg : st.registered with
          | true =>
              have hstep : regStep cfg st (RegEvent.timer fc ft)
                  = (st, [], []) := by
                simp [regStep, hrg]
              simp only [regRun, hstep, List.nil_append]
              exact ih st hres hrej h2 (by omega)
          | false =>
              have hlt : st.registrationAttempts
                  < st.maxRegistrationAttempts := by omega
              have hstep : regStep cfg st (RegEvent.timer fc ft)
                  = ((registerStep cfg st false fc ft).1, [],
                     [(registerStep cfg st false fc ft).2]) := by
                simp [regStep, hrg, hlt]
              simp only [regRun, hstep, List.nil_append]
              exact ih _ (by simpa [registerStep] using hres)
                (by simpa [registerStep] using hrej)
                (by simpa [registerStep] using h2)
                (by simp [registerStep]; omega)

/-- Claim C2: starting from the state `initialize` leaves after arming
the future and issuing the first REGISTER, every sequence of REGISTER
responses and timer firings (the source arms exactly one timeout per
initialization, so a faithful trace fires the timer at most once)
applies at most one future action in total — hence at most one resolve,
at most one reject, and a settled future is never touched again. -/
theorem registration_future_settled_once (cfg : SIPConfig) (cid tag : String)
    (evs : List RegEvent) (h : countTimer evs ≤ 1) :
    ((regRun cfg (initRegState cfg cid tag) evs).2).length ≤ 1 ∧
    ((regRun cfg (initRegState cfg cid tag) evs).2).countP isResolve ≤ 1 ∧
    ((regRun cfg (initRegState cfg cid tag) evs).2).countP isReject ≤ 1 := by
  have hlen := regRun_armed_aux cfg evs (initRegState cfg cid tag)
    rfl rfl rfl (by simp [initRegState, registerStep, blankRegState]; omega)
  exact ⟨hlen,
    le_trans (List.countP_le_length _) hlen,
    le_trans (List.countP_le_length _) hlen⟩

/-- Witness for `registration_future_settled_once`: a 500 rejection
followed by the timer firing (which retries instead of rejecting again)
and a late 200. -/
theorem registration_future_settled_once_witness :
    countTimer [RegEvent.resp 500 "a" "b", RegEvent.timer "c" "d",
        RegEvent.resp 200 "e" "f"] ≤ 1 ∧
    ((regRun demoCfg (initRegState demoCfg "rc0" "rt0")
        [RegEvent.resp 500 "a" "b", RegEvent.timer "c" "d",
         RegEvent.resp 200 "e" "f"]).2).length ≤ 1 :=
  ⟨by decide,
   (registration_future_settled_once demoCfg "rc0" "rt0"
      [RegEvent.resp 500 "a" "b", RegEvent.timer "c" "d",
       RegEvent.resp 200 "e" "f"] (by decide)).1⟩


/-! ### Claim C3 -/

/-- Every event hands at most one request to the transport. -/
theorem callStep_len_le_one (c : SIPCall) (e : CallEvent) :
    ((callStep c e).2).length ≤ 1 := by
  cases e <;>
    (simp only [callStep, handleCallResponse, reInviteWithAuthStep, hangupCall,
        sendDTMFCall, handleByeForCall]
     repeat' split
     all_goals simp)

/-- Every event preserves the dialog, never decreasing its sequence
counter. -/
theorem callStep_dialog_mono (c : SIPCall) (e : CallEvent) (d : SIPDialog)
    (h : c.dialog = some d) :
    ∃ d2, (callStep c e).1.dialog = some d2 ∧ d.cseq ≤ d2.cseq := by
  cases e <;>
    (simp only [callStep, handleCallResponse, reInviteWithAuthStep, hangupCall,
        sendDTMFCall, handleByeForCall, h]
     repeat' split
     all_goals
       first
         | exact ⟨d, h, Nat.le_refl _⟩
         | exact ⟨_, rfl, Nat.le_refl _⟩
         | exact ⟨_, rfl, Nat.le_succ _⟩)

/-- Any BYE, INFO or re-INVITE handed to the transport by one event
carries a sequence number strictly above the dialog counter the call
held before the event. -/
theorem callStep_out_ord_gt (c : SIPCall) (e : CallEvent) (d : SIPDialog)
    (h : c.dialog = some d) :
    ∀ r, coreOrdered r = true → r ∈ (callStep c e).2 → d.cseq < r.cseqSeq := by
  intro r hord
  cases e <;>
    (simp only [callStep, handleCallResponse, reInviteWithAuthStep, hangupCall,
        sendDTMFCall, handleByeForCall, h]
     repeat' split
     all_goals
       first
         | exact fun hr => absurd hr (List.not_mem_nil r)
         | (intro hr
            rw [List.mem_singleton] at hr
            subst hr
            first
              | exact Nat.lt_succ_self _
              | (exfalso
                 simp [coreOrdered, coreAdvancing, sendAck] at hord)))

/-- Any INFO or re-INVITE handed to the transport by one event carries
a sequence number no larger than the dialog counter after the event. -/
theorem callStep_out_adv_le (c : SIPCall) (e : CallEvent) (d : SIPDialog)
    (h : c.dialog = some d) :
    ∀ r, coreAdvancing r = true → r ∈ (callStep c e).2 →
      ∃ d2, (callStep c e).1.dialog = some d2 ∧ r.cseqSeq ≤ d2.cseq := by
  intro r hadv
  cases e <;>
    (simp only [callStep, handleCallResponse, reInviteWithAuthStep, hangupCall,
        sendDTMFCall, handleByeForCall, h]
     repeat' split
     all_goals
       first
         | exact fun hr => absurd hr (List.not_mem_nil r)
         | (intro hr
            rw [List.mem_singleton] at hr
            subst hr
            first
              | exact ⟨_, rfl, Nat.le_refl _⟩
              | (exfalso
                 simp [coreAdvancing, sendAck] at hadv)))

/-- Over a whole trace, every BYE, INFO or re-INVITE sent carries a
sequence number strictly above the dialog counter held at the start. -/
theorem runCall_out_ord_gt (evs : List CallEvent) :
    ∀ (c : SIPCall) (d : SIPDialog), c.dialog = some d →
      ∀ r ∈ (runCall c evs).2, coreOrdered r = true → d.cseq < r.cseqSeq := by
  induction evs with
  | nil =>
      intro c d _ r hr
      simp [runCall] at hr
  | cons e es ih =>
      intro c d h r hr hord
      simp only [runCall, List.mem_append] at hr
      rcases hr with hr | hr
      · exact callStep_out_ord_gt c e d h r hord hr
      · obtain ⟨d2, hd2, hle⟩ := callStep_dialog_mono c e d h
        exact lt_of_le_of_lt hle (ih (callStep c e).1 d2 hd2 r hr hord)

/-- A list of at most one request is vacuously ordered. -/
theorem pairwise_of_len_le_one (l : List SIPRequest) (h : l.length ≤ 1) :
    l.Pairwise ReqOrder := by
  match l with
  | [] => exact List.Pairwise.nil
  | [a] => simp
  | a :: b :: t => simp at h

/-- The requests a trace sends are pairwise ordered: a cseq-advancing
request (INFO/re-INVITE) always precedes, with a strictly smaller
sequence number, any later BYE/INFO/re-INVITE. -/
theorem runCall_pairwise (evs : List CallEvent) :
    ∀ (c : SIPCall) (d : SIPDialog), c.dialog = some d →
      ((runCall c evs).2).Pairwise ReqOrder := by
  induction evs with
  | nil => intro c d _; simp [runCall]
  | cons e es ih =>
      intro c d h
      simp only [runCall]
      rw [List.pairwise_append]
      obtain ⟨d2, hd2, _⟩ := callStep_dialog_mono c e d h
      refine ⟨pairwise_of_len_le_one _ (callStep_len_le_one c e),
        ih (callStep c e).1 d2 hd2, ?_⟩
      intro a ha b hb hadv hord
      obtain ⟨d3, hd3, hle⟩ := callStep_out_adv_le c e d h a hadv ha
      rw [hd2] at hd3
      simp only [Option.some.injEq] at hd3
      subst hd3
      have h2 := runCall_out_ord_gt es (callStep c e).1 d2 hd2 b hb hord
      omega

/-- Claim C3 counterexample: an auth challenge on the INVITE makes the
core send a re-INVITE with sequence number 2, and a hangup while
ringing then sends a CANCEL that mirrors the stored INVITE's sequence
number — also 2.  The two in-dialog requests are issued in this order
with equal CSeq values, so the sequence numbers are not strictly
increasing across CANCEL. -/
theorem cancel_equals_reinvite_cseq :
    ((runCall demoCall0 [CallEvent.response (mkResp 401 "INVITE") none 1,
        CallEvent.hangupEv 2]).2.map fun r => (r.method, r.cseqSeq))
      = [("INVITE", 2), ("CANCEL", 2)] ∧
    ¬ ((runCall demoCall0 [CallEvent.response (mkResp 401 "INVITE") none 1,
        CallEvent.hangupEv 2]).2).Pairwise
        (fun a b => a.cseqSeq < b.cseqSeq) := by
  refine ⟨rfl, fun hp => ?_⟩
  have hmap : ((runCall demoCall0 [CallEvent.response (mkResp 401 "INVITE") none 1,
      CallEvent.hangupEv 2]).2.map fun r => r.cseqSeq) = [2, 2] := rfl
  have hp2 : ((runCall demoCall0 [CallEvent.response (mkResp 401 "INVITE") none 1,
      CallEvent.hangupEv 2]).2.map fun r => r.cseqSeq).Pairwise
        (fun x y => x < y) := List.pairwise_map.mpr hp
  rw [hmap] at hp2
  simp at hp2

/-- Claim C3 (amended): within one dialog, every BYE, INFO or re-INVITE
the core sends carries a strictly larger sequence number than every
INFO or re-INVITE sent before it (INFO and re-INVITE advance the dialog
counter, so among themselves they are strictly increasing); CANCEL is
excluded — it mirrors the stored INVITE's sequence number, as SIP
requires — and a BYE does not advance the counter. -/
theorem dialog_cseq_amended (cfg : SIPConfig)
    (toN cid tag branch : String) (now : Nat) (evs : List CallEvent) :
    ((runCall (makeCallState cfg toN cid tag branch now) evs).2).Pairwise
      ReqOrder ∧
    (∀ (c : SIPCall) (d : SIPDialog) (n : Nat), c.dialog = some d →
       (c.status = CallStatus.ringing ∨ c.status = CallStatus.initiating) →
       (callStep c (CallEvent.hangupEv n)).2
         = [⟨"CANCEL", d.inviteRequest.uri, d.inviteRequest.to_,
             d.inviteRequest.from_, c.callId, "CANCEL",
             d.inviteRequest.cseqSeq, d.inviteRequest.via,
             none, none, none, none, false⟩]) := by
  constructor
  · exact runCall_pairwise evs (makeCallState cfg toN cid tag branch now) _ rfl
  · intro c d n hd hs
    rcases hs with hs | hs <;> simp [callStep, hangupCall, hs, hd]

/-- Witness for `dialog_cseq_amended` at a concrete trace and call. -/
theorem dialog_cseq_amended_witness :
    ((runCall (makeCallState demoCfg "555-0123" "cid0" "tag0" "br0" 0)
        [CallEvent.response (mkResp 401 "INVITE") none 1,
         CallEvent.hangupEv 2]).2).Pairwise ReqOrder ∧
    (callStep demoRinging (CallEvent.hangupEv 3)).2
      = [⟨"CANCEL", demoDialog0.inviteRequest.uri, demoDialog0.inviteRequest.to_,
          demoDialog0.inviteRequest.from_, demoRinging.callId, "CANCEL",
          demoDialog0.inviteRequest.cseqSeq, demoDialog0.inviteRequest.via,
          none, none, none, none, false⟩] :=
  ⟨(dialog_cseq_amended demoCfg "555-0123" "cid0" "tag0" "br0" 0
      [CallEvent.response (mkResp 401 "INVITE") none 1,
       CallEvent.hangupEv 2]).1,
   (dialog_cseq_amended demoCfg "x" "y" "z" "w" 0 []).2
      demoRinging demoDialog0 3 rfl (Or.inl rfl)⟩


/-! ### Claim C1 (amended theorem) -/

/-- Every call that has a dialog keeps one through every event
sequence. -/
theorem runCall_dialog_isSome (evs : List CallEvent) :
    ∀ (c : SIPCall) (d : SIPDialog), c.dialog = some d →
      ((runCall c evs).1.dialog).isSome = true := by
  induction evs with
  | nil =>
      intro c d h
      simp [runCall, h]
  | cons e es ih =>
      intro c d h
      obtain ⟨d2, hd2, _⟩ := callStep_dialog_mono c e d h
      simpa [runCall] using ih (callStep c e).1 d2 hd2

/-- Claim C1 (amended): hangup and inbound-BYE events always leave the
call `ended`; no event ever moves a call back to `initiating`; a call
keeps its dialog under every event, and a call created by `makeCall`
carries a dialog — whose remote identity is populated (from the
INVITE's To header, later overwritten by a 200's To header) — through
every event sequence, so no call is `answered` without one.  The
response handlers, however, do not consult the current status, so
transitions out of `answered` and out of the terminal states `ended`
and `failed` do occur (a late 180 on an ended call yields `ringing`,
see the counterexample). -/
theorem status_transition_amended (c : SIPCall) (e : CallEvent)
    (cfg : SIPConfig) (toN cid tag branch : String) (now : Nat)
    (evs : List CallEvent) :
    ((callStep c e).1.status = CallStatus.initiating →
       c.status = CallStatus.initiating) ∧
    (∀ n, e = CallEvent.hangupEv n →
       (callStep c e).1.status = CallStatus.ended) ∧
    (∀ n, e = CallEvent.inboundBye n →
       (callStep c e).1.status = CallStatus.ended) ∧
    (c.dialog.isSome = true → (callStep c e).1.dialog.isSome = true) ∧
    ((runCall (makeCallState cfg toN cid tag branch now) evs).1.dialog.isSome
       = true) := by
  refine ⟨?_, ?_, ?_, ?_, ?_⟩
  · cases e <;>
      (simp only [callStep, handleCallResponse, reInviteWithAuthStep,
          hangupCall, sendDTMFCall, handleByeForCall]
       repeat' split
       all_goals intro hst
       all_goals first
         | exact hst
         | simp at hst)
  · intro n he
    cases he
    rfl
  · intro n he
    cases he
    rfl
  · intro hso
    cases hd : c.dialog with
    | none => rw [hd] at hso; cases hso
    | some d =>
        obtain ⟨d2, hd2, _⟩ := callStep_dialog_mono c e d hd
        simp [hd2]
  · exact runCall_dialog_isSome evs _ _ rfl

/-- Witness for `status_transition_amended` at a concrete call, a
hangup event, and a one-response trace. -/
theorem status_transition_amended_witness :
    (callStep demoCall0 (CallEvent.hangupEv 1)).1.status = CallStatus.ended ∧
    (callStep demoCall0 (CallEvent.hangupEv 1)).1.dialog.isSome = true ∧
    ((runCall (makeCallState demoCfg "555-0123" "cid0" "tag0" "br0" 0)
        [CallEvent.response (mkResp 200 "INVITE") none 1]).1.dialog.isSome
       = true) :=
  ⟨(status_transition_amended demoCall0 (CallEvent.hangupEv 1) demoCfg
      "555-0123" "cid0" "tag0" "br0" 0
      [CallEvent.response (mkResp 200 "INVITE") none 1]).2.1 1 rfl,
   (status_transition_amended demoCall0 (CallEvent.hangupEv 1) demoCfg
      "555-0123" "cid0" "tag0" "br0" 0
      [CallEvent.response (mkResp 200 "INVITE") none 1]).2.2.2.1 rfl,
   (status_transition_amended demoCall0 (CallEvent.hangupEv 1) demoCfg
      "555-0123" "cid0" "tag0" "br0" 0
      [CallEvent.response (mkResp 200 "INVITE") none 1]).2.2.2.2⟩

end SIPCore
